import Mathlib

/-!
Verification development for the savings/investment simulator
(`src/investment-calculator.js`).  The computational core — input
validation/clamping (`validateInput`), the income-bracket recommendation
(`calculateRecommendation` over `TRANCHES`) and the monthly compounding
simulation (`calculateInvestment`) — is embedded shallowly over ℚ.

Numeric model: JavaScript numbers are modelled as exact rationals; `NaN`
(the result of `parseFloat` on non-numeric text) is modelled as `none` in
`Option ℚ`, so that the JS facts `NaN < c = false` and
`Math.max(c, NaN) = NaN` are captured.  `x.toFixed(2)` followed by
`parseFloat` is modelled as rounding to 2 decimals half-up (`round2`), and
`Math.round` as `⌊x + 1/2⌋` (`jsRound`), matching JS on the non-negative
values that arise here.
-/

namespace InvestCalc

/-- Field name used by the validator (source: `validateInput` switch). -/
def fieldSomme : String := "sommeInitiale"

/-- Field name used by the validator. -/
def fieldMensualite : String := "mensualite"

/-- Field name used by the validator. -/
def fieldTaux : String := "tauxAnnuel"

/-- Field name used by the validator. -/
def fieldAnnees : String := "nombreAnnees"

/-- Validation message for a negative initial capital. -/
def msgSomme : String := "Le montant doit être positif"

/-- Validation message for a negative monthly contribution. -/
def msgMensualite : String := "Le versement doit être positif"

/-- Validation message for an out-of-range annual rate. -/
def msgTaux : String := "Le taux doit être entre 0 et 100%"

/-- Validation message for an out-of-range duration. -/
def msgAnnees : String := "La durée doit être entre 1 et 50 ans"

/-- A JavaScript number: `some q` is a finite value, `none` is `NaN`. -/
abbrev JSNum := Option ℚ

/-- JS `value < c`: any comparison with `NaN` is `false`. -/
def jsLtNum (v : JSNum) (c : ℚ) : Bool :=
  match v with
  | none => false
  | some q => decide (q < c)

/-- JS `value > c`: any comparison with `NaN` is `false`. -/
def jsGtNum (v : JSNum) (c : ℚ) : Bool :=
  match v with
  | none => false
  | some q => decide (c < q)

/-- JS `Math.max(c, value)`: `NaN` absorbs. -/
def jsMax (c : ℚ) (v : JSNum) : JSNum :=
  match v with
  | none => none
  | some q => some (max c q)

/-- JS `Math.min(c, value)`: `NaN` absorbs. -/
def jsMin (c : ℚ) (v : JSNum) : JSNum :=
  match v with
  | none => none
  | some q => some (min c q)

/-- The per-field validation-message map held by the caller (`errors`
state).  Only the four validated fields ever carry a message. -/
structure ErrorsMap where
  sommeInitiale : Option String
  mensualite : Option String
  tauxAnnuel : Option String
  nombreAnnees : Option String
deriving DecidableEq, Repr

/-- The empty message map (initial `errors` state `{}`). -/
def emptyErrors : ErrorsMap := ⟨none, none, none, none⟩

/-- Result of one `validateInput` call: the validated value and the
updated message map. -/
structure ValidateResult where
  value : JSNum
  errors : ErrorsMap
deriving DecidableEq, Repr

/-- Embedding of `validateInput(name, value)` from
`src/investment-calculator.js` (lines 74–113).  The source copies the
caller's `errors` object, then per recognized field sets or deletes that
field's message and clamps with `Math.max` / `Math.min`; an unrecognized
field name falls to the `default` branch which passes both through. -/
def validateInput (name : String) (value : JSNum) (errors : ErrorsMap) :
    ValidateResult :=
  if name = fieldSomme then
    let newErrors :=
      if jsLtNum value 0 then { errors with sommeInitiale := some msgSomme }
      else { errors with sommeInitiale := none }
    ⟨jsMax 0 value, newErrors⟩
  else if name = fieldMensualite then
    let newErrors :=
      if jsLtNum value 0 then { errors with mensualite := some msgMensualite }
      else { errors with mensualite := none }
    ⟨jsMax 0 value, newErrors⟩
  else if name = fieldTaux then
    let newErrors :=
      if jsLtNum value 0 || jsGtNum value 100 then
        { errors with tauxAnnuel := some msgTaux }
      else { errors with tauxAnnuel := none }
    ⟨jsMin 100 (jsMax 0 value), newErrors⟩
  else if name = fieldAnnees then
    let newErrors :=
      if jsLtNum value 1 || jsGtNum value 50 then
        { errors with nombreAnnees := some msgAnnees }
      else { errors with nombreAnnees := none }
    ⟨jsMin 50 (jsMax 1 value), newErrors⟩
  else ⟨value, errors⟩

/-- Select the message of the named field from an `ErrorsMap`. -/
def errOf (name : String) (e : ErrorsMap) : Option String :=
  if name = fieldSomme then e.sommeInitiale
  else if name = fieldMensualite then e.mensualite
  else if name = fieldTaux then e.tauxAnnuel
  else if name = fieldAnnees then e.nombreAnnees
  else none

/-- `parseFloat(x.toFixed(2))`: round to 2 decimals, half up. -/
def round2 (x : ℚ) : ℚ := (⌊x * 100 + 1 / 2⌋ : ℚ) / 100

/-- JS `Math.round`: round half toward positive infinity. -/
def jsRound (x : ℚ) : ℤ := ⌊x + 1 / 2⌋

/-- One income bracket of the static `TRANCHES` table. -/
structure Tranche where
  id : String
  label : String
  min : ℚ
  max : ℚ
  tauxEpargneRecommande : ℚ
deriving DecidableEq, Repr

/-- The five-entry income-bracket reference table (source lines 41–47). -/
def TRANCHES : List Tranche :=
  [⟨"moins-2000", "Moins de 2000€", 0, 2000, 5 / 100⟩,
   ⟨"2000-4000", "Entre 2000€ et 4000€", 2000, 4000, 10 / 100⟩,
   ⟨"4000-6000", "Entre 4000€ et 6000€", 4000, 6000, 15 / 100⟩,
   ⟨"6000-8000", "Entre 6000€ et 8000€", 6000, 8000, 20 / 100⟩,
   ⟨"plus-8000", "Plus de 8000€", 8000, 100000, 25 / 100⟩]

/-- The ids present in the reference table. -/
def trancheIds : List String := TRANCHES.map (fun t => t.id)

/-- A recommendation: monthly amount and percentage of income. -/
structure Recommandation where
  montantRecommande : ℚ
  pourcentageRevenu : ℚ
deriving DecidableEq, Repr

/-- Embedding of `calculateRecommendation(trancheId)` (source lines
180–197): find the bracket by id; if absent return `{0, 0}` (the source
only logs a warning, it does not throw); otherwise round the midpoint
times the recommended rate with `Math.round`. -/
def calculateRecommendation (trancheId : String) : Recommandation :=
  match TRANCHES.find? (fun t => t.id = trancheId) with
  | none => ⟨0, 0⟩
  | some tranche =>
    let revenuMoyen := (tranche.min + tranche.max) / 2
    ⟨(jsRound (revenuMoyen * tranche.tauxEpargneRecommande) : ℚ),
     tranche.tauxEpargneRecommande * 100⟩

/-- The validated simulator inputs (the `inputs` state object). -/
structure Inputs where
  sommeInitiale : ℚ
  mensualite : ℚ
  tauxAnnuel : ℚ
  nombreAnnees : ℕ
  trancheRevenu : String
deriving DecidableEq, Repr

/-- One point of `graphData`: month index, stored running total and
stored cumulative invested amount. -/
structure GraphPoint where
  mois : ℕ
  total : ℚ
  investi : ℚ
deriving DecidableEq, Repr

/-- The `results` object assembled by `calculateInvestment`. -/
structure Results where
  montantTotal : ℚ
  montantInvesti : ℚ
  gains : ℚ
  graphData : List GraphPoint
  recommandation : Recommandation
deriving DecidableEq, Repr

/-- The monthly rate `tauxAnnuel / 100 / 12` computed once per run. -/
def tauxMensuel (inputs : Inputs) : ℚ := inputs.tauxAnnuel / 100 / 12

/-- One iteration of the source's `for` loop (lines 212–221): add the
monthly contribution, apply the growth factor, and push the point for
month `mois` (stored total rounded to 2 decimals, invested amount kept
exact). -/
def investStep (inputs : Inputs) (st : ℚ × List GraphPoint) (mois : ℕ) :
    ℚ × List GraphPoint :=
  let montantTotal := (st.1 + inputs.mensualite) * (1 + tauxMensuel inputs)
  (montantTotal,
   st.2 ++ [⟨mois, round2 montantTotal,
             inputs.sommeInitiale + inputs.mensualite * (mois : ℚ)⟩])

/-- Embedding of `calculateInvestment` (source lines 200–239): the loop
over months `1 .. nombreMois` is the fold of `investStep` starting from
the initial balance and the month-0 point; `montantTotal` is rounded to
2 decimals only when stored, `montantInvesti` is exact, and `gains` is
computed from the UNROUNDED final balance and then rounded. -/
def calculateInvestment (inputs : Inputs) : Results :=
  let nombreMois := inputs.nombreAnnees * 12
  let st :=
    ((List.range nombreMois).map (fun k => k + 1)).foldl (investStep inputs)
      (inputs.sommeInitiale,
       [⟨0, inputs.sommeInitiale, inputs.sommeInitiale⟩])
  let montantInvesti := inputs.sommeInitiale + inputs.mensualite * (nombreMois : ℚ)
  let gains := st.1 - montantInvesti
  { montantTotal := round2 st.1
    montantInvesti := montantInvesti
    gains := round2 gains
    graphData := st.2
    recommandation := calculateRecommendation inputs.trancheRevenu }

/-- The unrounded running balance after `m` loop iterations. -/
def montantTotalAfter (inputs : Inputs) : ℕ → ℚ
  | 0 => inputs.sommeInitiale
  | m + 1 =>
      (montantTotalAfter inputs m + inputs.mensualite) * (1 + tauxMensuel inputs)

/-- The point stored at index `m` of `graphData`: month 0 keeps the raw
initial balance, later months store the rounded running total. -/
def seriesPoint (inputs : Inputs) (m : ℕ) : GraphPoint :=
  if m = 0 then ⟨0, inputs.sommeInitiale, inputs.sommeInitiale⟩
  else ⟨m, round2 (montantTotalAfter inputs m),
        inputs.sommeInitiale + inputs.mensualite * (m : ℚ)⟩

/-- Modelled from the spec: the contribution-then-growth recurrence
`total_0 = initialCapital`,
`total_m = (total_(m-1) + monthlyContribution) * (1 + annualRatePercent/100/12)`
stated in §4.3 of the specification, kept separate from the code-derived
`montantTotalAfter` so the two can be compared. -/
def specTotal (initialCapital monthlyContribution annualRatePercent : ℚ) :
    ℕ → ℚ
  | 0 => initialCapital
  | m + 1 =>
      (specTotal initialCapital monthlyContribution annualRatePercent m +
        monthlyContribution) * (1 + annualRatePercent / 100 / 12)

/-- The validity predicate of a `SimulationParameters` (§3 of the spec). -/
def ValidInputs (inputs : Inputs) : Prop :=
  0 ≤ inputs.sommeInitiale ∧ 0 ≤ inputs.mensualite ∧
    0 ≤ inputs.tauxAnnuel ∧ inputs.tauxAnnuel ≤ 100 ∧
    1 ≤ inputs.nombreAnnees ∧ inputs.nombreAnnees ≤ 50

instance (inputs : Inputs) : Decidable (ValidInputs inputs) := by
  unfold ValidInputs; infer_instance

/-! ### Bridging lemmas: the fold computes the closed-form series -/

lemma seriesPoint_zero (inputs : Inputs) :
    seriesPoint inputs 0 = ⟨0, inputs.sommeInitiale, inputs.sommeInitiale⟩ := by
  simp [seriesPoint]

lemma investFold (inputs : Inputs) (n : ℕ) :
    ((List.range n).map (fun k => k + 1)).foldl (investStep inputs)
        (inputs.sommeInitiale,
         [⟨0, inputs.sommeInitiale, inputs.sommeInitiale⟩]) =
      (montantTotalAfter inputs n,
       (List.range (n + 1)).map (seriesPoint inputs)) := by
  induction n with
  | zero =>
      simp [montantTotalAfter, List.range_succ, seriesPoint]
  | succ k ih =>
      rw [List.range_succ, List.map_append, List.foldl_append, ih]
      have h2 : List.range (k + 1 + 1) = List.range (k + 1) ++ [k + 1] := by
        simp [List.range_succ]
      rw [h2, List.map_append]
      simp only [List.map_cons, List.map_nil, List.foldl_cons, List.foldl_nil,
        investStep]
      constructor

lemma calculateInvestment_graphData (inputs : Inputs) :
    (calculateInvestment inputs).graphData =
      (List.range (inputs.nombreAnnees * 12 + 1)).map (seriesPoint inputs) := by
  simp only [calculateInvestment]
  rw [investFold]

lemma calculateInvestment_montantTotal (inputs : Inputs) :
    (calculateInvestment inputs).montantTotal =
      round2 (montantTotalAfter inputs (inputs.nombreAnnees * 12)) := by
  simp only [calculateInvestment]
  rw [investFold]

lemma calculateInvestment_montantInvesti (inputs : Inputs) :
    (calculateInvestment inputs).montantInvesti =
      inputs.sommeInitiale +
        inputs.mensualite * ((inputs.nombreAnnees * 12 : ℕ) : ℚ) := by
  simp only [calculateInvestment]

lemma calculateInvestment_gains (inputs : Inputs) :
    (calculateInvestment inputs).gains =
      round2 (montantTotalAfter inputs (inputs.nombreAnnees * 12) -
        (inputs.sommeInitiale +
          inputs.mensualite * ((inputs.nombreAnnees * 12 : ℕ) : ℚ))) := by
  simp only [calculateInvestment]
  rw [investFold]

lemma calculateInvestment_get (inputs : Inputs) (m : ℕ)
    (hm : m ≤ inputs.nombreAnnees * 12) :
    (calculateInvestment inputs).graphData[m]? =
      some (seriesPoint inputs m) := by
  rw [calculateInvestment_graphData, List.getElem?_map,
    List.getElem?_range (by omega)]
  rfl

lemma specTotal_eq_montantTotalAfter (inputs : Inputs) (m : ℕ) :
    specTotal inputs.sommeInitiale inputs.mensualite inputs.tauxAnnuel m =
      montantTotalAfter inputs m := by
  induction m with
  | zero => rfl
  | succ k ih => simp [specTotal, montantTotalAfter, tauxMensuel, ih]

/-! ### Order and sign lemmas for the running balance -/

lemma round2_mono {x y : ℚ} (h : x ≤ y) : round2 x ≤ round2 y := by
  unfold round2
  have hf : (⌊x * 100 + 1 / 2⌋ : ℤ) ≤ ⌊y * 100 + 1 / 2⌋ :=
    Int.floor_le_floor (by linarith)
  have hq : ((⌊x * 100 + 1 / 2⌋ : ℤ) : ℚ) ≤ ((⌊y * 100 + 1 / 2⌋ : ℤ) : ℚ) := by
    exact_mod_cast hf
  linarith

lemma tauxMensuel_nonneg (inputs : Inputs) (h : 0 ≤ inputs.tauxAnnuel) :
    0 ≤ tauxMensuel inputs := by
  unfold tauxMensuel
  positivity

lemma montantTotalAfter_nonneg (inputs : Inputs)
    (hs : 0 ≤ inputs.sommeInitiale) (hc : 0 ≤ inputs.mensualite)
    (hr : 0 ≤ inputs.tauxAnnuel) : ∀ m, 0 ≤ montantTotalAfter inputs m := by
  intro m
  induction m with
  | zero => exact hs
  | succ k ih =>
      have h1 := tauxMensuel_nonneg inputs hr
      simp only [montantTotalAfter]
      nlinarith

lemma montantTotalAfter_le_succ (inputs : Inputs)
    (hs : 0 ≤ inputs.sommeInitiale) (hc : 0 ≤ inputs.mensualite)
    (hr : 0 ≤ inputs.tauxAnnuel) (m : ℕ) :
    montantTotalAfter inputs m ≤ montantTotalAfter inputs (m + 1) := by
  have h0 := montantTotalAfter_nonneg inputs hs hc hr m
  have h1 := tauxMensuel_nonneg inputs hr
  simp only [montantTotalAfter]
  nlinarith

lemma montantTotalAfter_mono (inputs : Inputs)
    (hs : 0 ≤ inputs.sommeInitiale) (hc : 0 ≤ inputs.mensualite)
    (hr : 0 ≤ inputs.tauxAnnuel) {m n : ℕ} (h : m ≤ n) :
    montantTotalAfter inputs m ≤ montantTotalAfter inputs n := by
  induction h with
  | refl => exact le_rfl
  | step _ ih =>
      exact ih.trans (montantTotalAfter_le_succ inputs hs hc hr _)

lemma montantTotalAfter_const (inputs : Inputs)
    (hc : inputs.mensualite = 0) (hr : inputs.tauxAnnuel = 0) (m : ℕ) :
    montantTotalAfter inputs m = inputs.sommeInitiale := by
  induction m with
  | zero => rfl
  | succ k ih => simp [montantTotalAfter, ih, hc, hr, tauxMensuel]

/-! ### Concrete inputs used in counterexamples and witnesses -/

/-- The bracket id of the first table entry. -/
def idM2000 : String := "moins-2000"

/-- The spec's end-to-end example: 0 initial, 120 monthly, 3 %, 3 years. -/
def exInputs : Inputs := ⟨0, 120, 3, 3, idM2000⟩

/-- Valid inputs with a sub-cent initial capital of 0.0148 and no
contribution: the month-1 stored total rounds down below the unrounded
month-0 value. -/
def cexC7 : Inputs := ⟨37 / 2500, 0, 3, 1, idM2000⟩

/-- Valid inputs with a sub-cent initial capital of 0.003, no
contribution and rate 0: the balance stays at 0.003 forever. -/
def cexC4 : Inputs := ⟨3 / 1000, 0, 0, 1, idM2000⟩

/-! ### Claims -/

/-- C1: for every validated parameter set, `calculateInvestment` returns
as final total the 2-decimal rounding of the spec's
contribution-then-growth recurrence at month `years*12`, and each series
point `m ∈ [1, years*12]` stores the 2-decimal rounding of the recurrence
at month `m`. -/
theorem C1_simulate_recurrence (inputs : Inputs) (hv : ValidInputs inputs) :
    (calculateInvestment inputs).montantTotal =
      round2 (specTotal inputs.sommeInitiale inputs.mensualite
        inputs.tauxAnnuel (inputs.nombreAnnees * 12)) ∧
    ∀ m, 1 ≤ m → m ≤ inputs.nombreAnnees * 12 →
      ((calculateInvestment inputs).graphData[m]?).map GraphPoint.total =
        some (round2 (specTotal inputs.sommeInitiale inputs.mensualite
          inputs.tauxAnnuel m)) := by
  constructor
  · rw [calculateInvestment_montantTotal, specTotal_eq_montantTotalAfter]
  · intro m h1 hm
    rw [calculateInvestment_get inputs m hm, specTotal_eq_montantTotalAfter]
    have hm0 : m ≠ 0 := by omega
    simp [seriesPoint, hm0]

/-- Witness for C1 at the spec's example inputs. -/
theorem C1_witness :
    ValidInputs exInputs ∧
    ((calculateInvestment exInputs).montantTotal =
      round2 (specTotal exInputs.sommeInitiale exInputs.mensualite
        exInputs.tauxAnnuel (exInputs.nombreAnnees * 12)) ∧
    ∀ m, 1 ≤ m → m ≤ exInputs.nombreAnnees * 12 →
      ((calculateInvestment exInputs).graphData[m]?).map GraphPoint.total =
        some (round2 (specTotal exInputs.sommeInitiale exInputs.mensualite
          exInputs.tauxAnnuel m))) :=
  ⟨by decide, C1_simulate_recurrence exInputs (by decide)⟩

/-- C2: for every validated parameter set the series has length
`years*12 + 1`, starts with the point `⟨0, initialCapital,
initialCapital⟩`, and the point at index `m` carries month index `m` and
invested amount `initialCapital + monthlyContribution * m`. -/
theorem C2_series_shape (inputs : Inputs) (hv : ValidInputs inputs) :
    (calculateInvestment inputs).graphData.length =
      inputs.nombreAnnees * 12 + 1 ∧
    (calculateInvestment inputs).graphData[0]? =
      some ⟨0, inputs.sommeInitiale, inputs.sommeInitiale⟩ ∧
    ∀ m, m ≤ inputs.nombreAnnees * 12 → ∀ p : GraphPoint,
      (calculateInvestment inputs).graphData[m]? = some p →
      p.mois = m ∧
        p.investi = inputs.sommeInitiale + inputs.mensualite * (m : ℚ) := by
  refine ⟨?_, ?_, ?_⟩
  · rw [calculateInvestment_graphData]
    simp
  · rw [calculateInvestment_get inputs 0 (by omega)]
    simp [seriesPoint]
  · intro m hm p hp
    rw [calculateInvestment_get inputs m hm] at hp
    obtain rfl : seriesPoint inputs m = p := Option.some.inj hp
    by_cases h0 : m = 0
    · subst h0
      simp [seriesPoint]
    · simp [seriesPoint, h0]

/-- Witness for C2 at the spec's example inputs. -/
theorem C2_witness :
    ValidInputs exInputs ∧
    ((calculateInvestment exInputs).graphData.length =
      exInputs.nombreAnnees * 12 + 1 ∧
    (calculateInvestment exInputs).graphData[0]? =
      some ⟨0, exInputs.sommeInitiale, exInputs.sommeInitiale⟩ ∧
    ∀ m, m ≤ exInputs.nombreAnnees * 12 → ∀ p : GraphPoint,
      (calculateInvestment exInputs).graphData[m]? = some p →
      p.mois = m ∧
        p.investi = exInputs.sommeInitiale + exInputs.mensualite * (m : ℚ)) :=
  ⟨by decide, C2_series_shape exInputs (by decide)⟩

/-- C3: for every validated parameter set, the stored `montantInvesti`
is exactly `initialCapital + monthlyContribution * (years*12)`, with no
rounding applied. -/
theorem C3_totalContributed (inputs : Inputs) (hv : ValidInputs inputs) :
    (calculateInvestment inputs).montantInvesti =
      inputs.sommeInitiale +
        inputs.mensualite * ((inputs.nombreAnnees * 12 : ℕ) : ℚ) :=
  calculateInvestment_montantInvesti inputs

/-- Witness for C3 at the spec's example inputs. -/
theorem C3_witness :
    ValidInputs exInputs ∧
    (calculateInvestment exInputs).montantInvesti =
      exInputs.sommeInitiale +
        exInputs.mensualite * ((exInputs.nombreAnnees * 12 : ℕ) : ℚ) :=
  ⟨by decide, C3_totalContributed exInputs (by decide)⟩

/-- C4 counterexample: at the valid inputs `cexC4` (initial 0.003,
contribution 0, rate 0, 1 year) the stored gain is `round2(0.003 − 0.003)
= 0`, while the claim's formula `round2(total) − totalContributed` gives
`0 − 0.003 = −0.003`: the source rounds the difference, not the final
balance before subtracting. -/
theorem C4_counterexample :
    ValidInputs cexC4 ∧
    (calculateInvestment cexC4).gains ≠
      (calculateInvestment cexC4).montantTotal -
        (calculateInvestment cexC4).montantInvesti := by
  have hconst := montantTotalAfter_const cexC4 rfl rfl (cexC4.nombreAnnees * 12)
  have hg : (calculateInvestment cexC4).gains = 0 := by
    rw [calculateInvestment_gains, hconst]
    norm_num [cexC4, round2]
  have ht : (calculateInvestment cexC4).montantTotal = 0 := by
    rw [calculateInvestment_montantTotal, hconst]
    norm_num [cexC4, round2]
  have hi : (calculateInvestment cexC4).montantInvesti = 3 / 1000 := by
    rw [calculateInvestment_montantInvesti]
    norm_num [cexC4]
  refine ⟨by norm_num [ValidInputs, cexC4], ?_⟩
  rw [hg, ht, hi]
  norm_num

/-- C4 amended: for every validated parameter set the stored gain equals
`round2` applied to the difference between the UNROUNDED final balance of
the recurrence and the exact contributed amount — the rounding acts on
the difference, not on the final balance before the subtraction. -/
theorem C4_amended_gains (inputs : Inputs) (hv : ValidInputs inputs) :
    (calculateInvestment inputs).gains =
      round2 (specTotal inputs.sommeInitiale inputs.mensualite
          inputs.tauxAnnuel (inputs.nombreAnnees * 12) -
        (inputs.sommeInitiale +
          inputs.mensualite * ((inputs.nombreAnnees * 12 : ℕ) : ℚ))) := by
  rw [calculateInvestment_gains, specTotal_eq_montantTotalAfter]

/-- Witness for the amended C4 at the spec's example inputs. -/
theorem C4_amended_witness :
    ValidInputs exInputs ∧
    (calculateInvestment exInputs).gains =
      round2 (specTotal exInputs.sommeInitiale exInputs.mensualite
          exInputs.tauxAnnuel (exInputs.nombreAnnees * 12) -
        (exInputs.sommeInitiale +
          exInputs.mensualite * ((exInputs.nombreAnnees * 12 : ℕ) : ℚ))) :=
  ⟨by decide, C4_amended_gains exInputs (by decide)⟩

/-- C5 counterexample: for a `NaN` raw value (modelled as `none`) on
`sommeInitiale`, `validateInput` does NOT return the bound 0 with a
message: `NaN < 0` is false so no message is set, and `Math.max(0, NaN)`
is `NaN`, which is returned unchanged. -/
theorem C5_counterexample :
    (validateInput fieldSomme none emptyErrors).value ≠ some 0 ∧
    errOf fieldSomme (validateInput fieldSomme none emptyErrors).errors =
      none := by
  decide

/-- C5 amended: for every field and every caller error map, a raw value
that cannot be parsed as a number (`NaN`, modelled as `none`) is passed
through unchanged (the clamps `Math.max`/`Math.min` absorb `NaN`) and the
field's validation message is CLEARED, because every range comparison
against `NaN` is false — not coerced to the nearest valid bound with a
message. -/
theorem C5_amended_nan (name : String) (errors : ErrorsMap)
    (h : name = fieldSomme ∨ name = fieldMensualite ∨ name = fieldTaux ∨
      name = fieldAnnees) :
    (validateInput name none errors).value = none ∧
    errOf name (validateInput name none errors).errors = none := by
  rcases h with rfl | rfl | rfl | rfl <;>
    simp [validateInput, errOf, jsLtNum, jsGtNum, jsMax, jsMin,
      fieldSomme, fieldMensualite, fieldTaux, fieldAnnees]

/-- Witness for the amended C5 on the rate field. -/
theorem C5_amended_witness :
    (fieldTaux = fieldSomme ∨ fieldTaux = fieldMensualite ∨
      fieldTaux = fieldTaux ∨ fieldTaux = fieldAnnees) ∧
    ((validateInput fieldTaux none emptyErrors).value = none ∧
      errOf fieldTaux (validateInput fieldTaux none emptyErrors).errors =
        none) :=
  ⟨Or.inr (Or.inr (Or.inl rfl)), C5_amended_nan fieldTaux emptyErrors
    (Or.inr (Or.inr (Or.inl rfl)))⟩

/-! ### Closed forms of `validateInput` on numeric values, per field -/

lemma validate_somme (v : ℚ) (errors : ErrorsMap) :
    validateInput fieldSomme (some v) errors =
      ⟨some (max 0 v),
       { errors with
          sommeInitiale := if v < 0 then some msgSomme else none }⟩ := by
  simp only [validateInput, if_pos rfl, jsLtNum, jsMax]
  split_ifs with h1 h2 h3 <;> simp_all

lemma validate_mensualite (v : ℚ) (errors : ErrorsMap) :
    validateInput fieldMensualite (some v) errors =
      ⟨some (max 0 v),
       { errors with
          mensualite := if v < 0 then some msgMensualite else none }⟩ := by
  have hne : fieldMensualite ≠ fieldSomme := by decide
  simp only [validateInput, if_neg hne, if_pos rfl, jsLtNum, jsMax]
  split_ifs with h1 h2 h3 <;> simp_all

lemma validate_taux (v : ℚ) (errors : ErrorsMap) :
    validateInput fieldTaux (some v) errors =
      ⟨some (min 100 (max 0 v)),
       { errors with
          tauxAnnuel := if v < 0 ∨ 100 < v then some msgTaux else none }⟩ := by
  have h1 : fieldTaux ≠ fieldSomme := by decide
  have h2 : fieldTaux ≠ fieldMensualite := by decide
  simp only [validateInput, if_neg h1, if_neg h2, if_pos rfl, jsLtNum,
    jsGtNum, jsMax, jsMin, Bool.or_eq_true, decide_eq_true_eq]
  split_ifs with h3 h4 h5 <;> simp_all

lemma validate_annees (v : ℚ) (errors : ErrorsMap) :
    validateInput fieldAnnees (some v) errors =
      ⟨some (min 50 (max 1 v)),
       { errors with
          nombreAnnees := if v < 1 ∨ 50 < v then some msgAnnees else none }⟩ := by
  have h1 : fieldAnnees ≠ fieldSomme := by decide
  have h2 : fieldAnnees ≠ fieldMensualite := by decide
  have h3 : fieldAnnees ≠ fieldTaux := by decide
  simp only [validateInput, if_neg h1, if_neg h2, if_neg h3, if_pos rfl,
    jsLtNum, jsGtNum, jsMax, jsMin, Bool.or_eq_true, decide_eq_true_eq]
  split_ifs with h4 h5 h6 <;> simp_all

lemma max_zero_ne_iff (v : ℚ) : max 0 v ≠ v ↔ v < 0 := by
  rcases lt_or_le v 0 with h | h
  · simp only [max_eq_left h.le]
    simp [h, h.ne']
  · simp [max_eq_right h, not_lt.mpr h]

lemma min_max_taux_ne_iff (v : ℚ) :
    min 100 (max 0 v) ≠ v ↔ v < 0 ∨ 100 < v := by
  rcases lt_or_le v 0 with h | h
  · have hm : max 0 v = 0 := max_eq_left h.le
    rw [hm]
    have h0 : min (100 : ℚ) 0 = 0 := by norm_num
    rw [h0]
    simp [h, h.ne']
  · rw [max_eq_right h]
    rcases le_or_lt v 100 with h2 | h2
    · simp [min_eq_right h2, not_lt.mpr h, not_lt.mpr h2]
    · simp [min_eq_left h2.le, h2, (by linarith : ¬v < 0), h2.ne]

lemma min_max_annees_ne_iff (v : ℚ) :
    min 50 (max 1 v) ≠ v ↔ v < 1 ∨ 50 < v := by
  rcases lt_or_le v 1 with h | h
  · have hm : max 1 v = 1 := max_eq_left h.le
    rw [hm]
    have h0 : min (50 : ℚ) 1 = 1 := by norm_num
    rw [h0]
    simp [h, h.ne']
  · rw [max_eq_right h]
    rcases le_or_lt v 50 with h2 | h2
    · simp [min_eq_right h2, not_lt.mpr h, not_lt.mpr h2]
    · simp [min_eq_left h2.le, h2, (by linarith : ¬v < 1), h2.ne]

/-- C6: on every numeric raw value each field's output is the documented
clamp (`max 0 v` for the two amounts, `min 100 (max 0 v)` for the rate,
`min 50 (max 1 v)` for the years), the field's message is present exactly
when clamping changed the value, and the three concrete examples of the
spec hold with their non-empty messages. -/
theorem C6_clamping (v : ℚ) (errors : ErrorsMap) :
    ((validateInput fieldSomme (some v) errors).value = some (max 0 v) ∧
      (errOf fieldSomme
          (validateInput fieldSomme (some v) errors).errors ≠ none ↔
        max 0 v ≠ v)) ∧
    ((validateInput fieldMensualite (some v) errors).value =
        some (max 0 v) ∧
      (errOf fieldMensualite
          (validateInput fieldMensualite (some v) errors).errors ≠ none ↔
        max 0 v ≠ v)) ∧
    ((validateInput fieldTaux (some v) errors).value =
        some (min 100 (max 0 v)) ∧
      (errOf fieldTaux
          (validateInput fieldTaux (some v) errors).errors ≠ none ↔
        min 100 (max 0 v) ≠ v)) ∧
    ((validateInput fieldAnnees (some v) errors).value =
        some (min 50 (max 1 v)) ∧
      (errOf fieldAnnees
          (validateInput fieldAnnees (some v) errors).errors ≠ none ↔
        min 50 (max 1 v) ≠ v)) ∧
    (validateInput fieldTaux (some 150) errors).value = some 100 ∧
    errOf fieldTaux (validateInput fieldTaux (some 150) errors).errors =
      some msgTaux ∧
    (validateInput fieldAnnees (some 0) errors).value = some 1 ∧
    errOf fieldAnnees (validateInput fieldAnnees (some 0) errors).errors =
      some msgAnnees ∧
    (validateInput fieldSomme (some (-50)) errors).value = some 0 ∧
    errOf fieldSomme
        (validateInput fieldSomme (some (-50)) errors).errors =
      some msgSomme ∧
    msgTaux ≠ "" ∧ msgAnnees ≠ "" ∧ msgSomme ≠ "" := by
  refine ⟨⟨?_, ?_⟩, ⟨?_, ?_⟩, ⟨?_, ?_⟩, ⟨?_, ?_⟩, ?_, ?_, ?_, ?_, ?_, ?_,
    by decide, by decide, by decide⟩
  · rw [validate_somme]
  · rw [validate_somme, max_zero_ne_iff]
    by_cases h : v < 0 <;> simp [errOf, h]
  · rw [validate_mensualite]
  · rw [validate_mensualite, max_zero_ne_iff]
    by_cases h : v < 0 <;> simp [errOf, fieldMensualite, fieldSomme, h]
  · rw [validate_taux]
  · rw [validate_taux, min_max_taux_ne_iff]
    by_cases h : v < 0 ∨ 100 < v <;>
      simp [errOf, fieldTaux, fieldSomme, fieldMensualite, h]
  · rw [validate_annees]
  · rw [validate_annees, min_max_annees_ne_iff]
    by_cases h : v < 1 ∨ 50 < v <;>
      simp [errOf, fieldAnnees, fieldSomme, fieldMensualite, fieldTaux, h]
  · rw [validate_taux]
    norm_num
  · rw [validate_taux]
    simp [errOf, fieldTaux, fieldSomme, fieldMensualite]
    norm_num
  · rw [validate_annees]
    norm_num
  · rw [validate_annees]
    simp [errOf, fieldAnnees, fieldSomme, fieldMensualite, fieldTaux]
  · rw [validate_somme]
    norm_num
  · rw [validate_somme]
    simp [errOf]

/-- C7 counterexample: at the valid inputs `cexC7` (initial 0.0148, no
contribution, rate 3 %, 1 year) the stored series DECREASES from index 0
to index 1: the month-0 point keeps the raw 0.0148 while the month-1
point stores `round2(0.0148 * 1.0025) = 0.01 < 0.0148`. -/
theorem C7_counterexample :
    ValidInputs cexC7 ∧ 0 < cexC7.tauxAnnuel ∧ 0 ≤ cexC7.mensualite ∧
    ((calculateInvestment cexC7).graphData[0]?).map GraphPoint.total =
      some (37 / 2500) ∧
    ((calculateInvestment cexC7).graphData[1]?).map GraphPoint.total =
      some (1 / 100) ∧
    ¬ ((37 : ℚ) / 2500 ≤ 1 / 100) := by
  refine ⟨by norm_num [ValidInputs, cexC7], by norm_num [cexC7],
    by norm_num [cexC7], ?_, ?_, by norm_num⟩
  · rw [calculateInvestment_get cexC7 0 (by norm_num [cexC7])]
    norm_num [seriesPoint, cexC7]
  · rw [calculateInvestment_get cexC7 1 (by norm_num [cexC7])]
    norm_num [seriesPoint, montantTotalAfter, tauxMensuel, cexC7, round2]

/-- C7 amended: under a positive rate and non-negative contribution the
stored `cumulativeTotal` values are non-decreasing FROM INDEX 1 ONWARD;
the step from index 0 (stored unrounded) to index 1 (stored rounded) can
decrease when the initial capital has sub-cent precision, which is the
only failure the counterexample exhibits. -/
theorem C7_amended_monotone (inputs : Inputs) (hv : ValidInputs inputs)
    (hr : 0 < inputs.tauxAnnuel) (i j : ℕ) (hi : 1 ≤ i) (hij : i ≤ j)
    (hj : j ≤ inputs.nombreAnnees * 12) (p q : GraphPoint)
    (hp : (calculateInvestment inputs).graphData[i]? = some p)
    (hq : (calculateInvestment inputs).graphData[j]? = some q) :
    p.total ≤ q.total := by
  obtain ⟨hs, hc, hr0, _, _, _⟩ := hv
  rw [calculateInvestment_get inputs i (le_trans hij hj)] at hp
  rw [calculateInvestment_get inputs j hj] at hq
  obtain rfl : seriesPoint inputs i = p := Option.some.inj hp
  obtain rfl : seriesPoint inputs j = q := Option.some.inj hq
  have hi0 : i ≠ 0 := by omega
  have hj0 : j ≠ 0 := by omega
  simp only [seriesPoint, if_neg hi0, if_neg hj0]
  exact round2_mono (montantTotalAfter_mono inputs hs hc hr0 hij)

/-- The month-1 point of the series at the example inputs. -/
def pEx1 : GraphPoint := ⟨1, 1203 / 10, 120⟩

/-- The month-2 point of the series at the example inputs. -/
def pEx2 : GraphPoint := ⟨2, 2409 / 10, 240⟩

/-- Witness for the amended C7 at the example inputs, indices 1 and 2. -/
theorem C7_amended_witness :
    ValidInputs exInputs ∧ 0 < exInputs.tauxAnnuel ∧ (1 : ℕ) ≤ 1 ∧
    (1 : ℕ) ≤ 2 ∧ 2 ≤ exInputs.nombreAnnees * 12 ∧
    (calculateInvestment exInputs).graphData[1]? = some pEx1 ∧
    (calculateInvestment exInputs).graphData[2]? = some pEx2 ∧
    pEx1.total ≤ pEx2.total := by
  have hp : (calculateInvestment exInputs).graphData[1]? = some pEx1 := by
    rw [calculateInvestment_get exInputs 1 (by norm_num [exInputs])]
    norm_num [seriesPoint, montantTotalAfter, tauxMensuel, exInputs,
      round2, pEx1]
  have hq : (calculateInvestment exInputs).graphData[2]? = some pEx2 := by
    rw [calculateInvestment_get exInputs 2 (by norm_num [exInputs])]
    norm_num [seriesPoint, montantTotalAfter, tauxMensuel, exInputs,
      round2, pEx2]
  exact ⟨by decide, by norm_num [exInputs], by norm_num, by norm_num,
    by norm_num [exInputs], hp, hq,
    C7_amended_monotone exInputs (by decide) (by norm_num [exInputs]) 1 2
      (by norm_num) (by norm_num) (by norm_num [exInputs]) pEx1 pEx2 hp hq⟩

/-- C8: for any bracket id absent from the five-entry table, the
recommendation is the zero recommendation `⟨0, 0⟩` (the lookup is total:
nothing is thrown), and the full simulation result still carries that
zero recommendation. -/
theorem C8_unknown_bracket (trancheId : String)
    (h : trancheId ∉ trancheIds) :
    calculateRecommendation trancheId = ⟨0, 0⟩ ∧
    ∀ inputs : Inputs, inputs.trancheRevenu = trancheId →
      (calculateInvestment inputs).recommandation = ⟨0, 0⟩ := by
  have hids : ∀ t ∈ TRANCHES, ¬ (t.id = trancheId) := by
    intro t ht heq
    apply h
    rw [trancheIds, ← heq]
    exact List.mem_map_of_mem (fun t => t.id) ht
  have hfind : TRANCHES.find? (fun t => t.id = trancheId) = none := by
    rw [List.find?_eq_none]
    intro t ht
    simpa using hids t ht
  constructor
  · simp [calculateRecommendation, hfind]
  · intro inputs hid
    have hrec : (calculateInvestment inputs).recommandation =
        calculateRecommendation inputs.trancheRevenu := by
      simp only [calculateInvestment]
    rw [hrec, hid]
    simp [calculateRecommendation, hfind]

/-- An id not present in the reference table. -/
def idUnknown : String := "tranche-inconnue"

/-- Example inputs carrying the unknown bracket id. -/
def wInputs : Inputs := ⟨0, 120, 3, 3, idUnknown⟩

/-- Witness for C8 at a concrete unknown id. -/
theorem C8_witness :
    idUnknown ∉ trancheIds ∧
    calculateRecommendation idUnknown = ⟨0, 0⟩ ∧
    (calculateInvestment wInputs).recommandation = ⟨0, 0⟩ :=
  ⟨by decide, (C8_unknown_bracket idUnknown (by decide)).1,
   (C8_unknown_bracket idUnknown (by decide)).2 wInputs rfl⟩

/-- C9: for every bracket of the table, the recommendation is
`Math.round(midpoint(min, max) * rate)` with percentage `rate * 100`; in
particular the first bracket gives amount 50 and percentage 5. -/
theorem C9_known_bracket (t : Tranche) (h : t ∈ TRANCHES) :
    calculateRecommendation t.id =
      ⟨((jsRound ((t.min + t.max) / 2 * t.tauxEpargneRecommande) : ℤ) : ℚ),
       t.tauxEpargneRecommande * 100⟩ ∧
    calculateRecommendation idM2000 = ⟨50, 5⟩ := by
  refine ⟨?_, ?_⟩
  · fin_cases h <;>
      simp +decide [calculateRecommendation, TRANCHES, List.find?, jsRound]
  · simp +decide [calculateRecommendation, TRANCHES, List.find?, jsRound,
      idM2000]
    norm_num

/-- The first table entry, used to instantiate C9. -/
def trancheM2000 : Tranche := ⟨"moins-2000", "Moins de 2000€", 0, 2000, 5 / 100⟩

/-- Witness for C9 at the first table entry. -/
theorem C9_witness :
    trancheM2000 ∈ TRANCHES ∧
    (calculateRecommendation trancheM2000.id =
      ⟨((jsRound ((trancheM2000.min + trancheM2000.max) / 2 *
          trancheM2000.tauxEpargneRecommande) : ℤ) : ℚ),
       trancheM2000.tauxEpargneRecommande * 100⟩ ∧
    calculateRecommendation idM2000 = ⟨50, 5⟩) :=
  ⟨by norm_num [TRANCHES, trancheM2000],
   C9_known_bracket trancheM2000 (by norm_num [TRANCHES, trancheM2000])⟩

/-- C10: one `validateInput` call touches at most its own field's entry
of the message map — every other field's message is returned unchanged —
and an unrecognized field name passes both value and map through
untouched. -/
theorem C10_frame (name : String) (v : JSNum) (errors : ErrorsMap) :
    (name ≠ fieldSomme →
      ((validateInput name v errors).errors).sommeInitiale =
        errors.sommeInitiale) ∧
    (name ≠ fieldMensualite →
      ((validateInput name v errors).errors).mensualite =
        errors.mensualite) ∧
    (name ≠ fieldTaux →
      ((validateInput name v errors).errors).tauxAnnuel =
        errors.tauxAnnuel) ∧
    (name ≠ fieldAnnees →
      ((validateInput name v errors).errors).nombreAnnees =
        errors.nombreAnnees) ∧
    (name ∉ [fieldSomme, fieldMensualite, fieldTaux, fieldAnnees] →
      validateInput name v errors = ⟨v, errors⟩) := by
  refine ⟨fun h => ?_, fun h => ?_, fun h => ?_, fun h => ?_, fun h => ?_⟩
  all_goals
    simp only [validateInput]
    split_ifs <;> simp_all

/-- The field name the source actually routes through the `default`
branch (`trancheRevenu`). -/
def fieldTranche : String := "trancheRevenu"

/-- Witness for C10 at the unrecognized field name `trancheRevenu`. -/
theorem C10_witness :
    ((validateInput fieldTranche (some 5) emptyErrors).errors).sommeInitiale =
      emptyErrors.sommeInitiale ∧
    ((validateInput fieldTranche (some 5) emptyErrors).errors).mensualite =
      emptyErrors.mensualite ∧
    ((validateInput fieldTranche (some 5) emptyErrors).errors).tauxAnnuel =
      emptyErrors.tauxAnnuel ∧
    ((validateInput fieldTranche (some 5) emptyErrors).errors).nombreAnnees =
      emptyErrors.nombreAnnees ∧
    validateInput fieldTranche (some 5) emptyErrors = ⟨some 5, emptyErrors⟩ :=
  ⟨(C10_frame fieldTranche (some 5) emptyErrors).1 (by decide),
   (C10_frame fieldTranche (some 5) emptyErrors).2.1 (by decide),
   (C10_frame fieldTranche (some 5) emptyErrors).2.2.1 (by decide),
   (C10_frame fieldTranche (some 5) emptyErrors).2.2.2.1 (by decide),
   (C10_frame fieldTranche (some 5) emptyErrors).2.2.2.2 (by decide)⟩

end InvestCalc
